import Mathlib

/-!
Verification development for the PostHog-to-MySQL sync pipeline
(`utils.py`, `sqlalchemy_setup.py`, `main.py`).

The Python source is shallowly embedded: JSON payloads become the `Json`
inductive, `datetime` values become `PyDateTime`, the database session
becomes an explicit list of persisted rows, the HTTP provider becomes a
function from requests to responses, and exceptions become `Except`.
-/

/-- JSON values, the shape of raw PostHog event payloads. -/
inductive Json where
  | null : Json
  | bool : Bool → Json
  | num : Int → Json
  | str : String → Json
  | arr : List Json → Json
  | obj : List (String × Json) → Json
deriving Repr

mutual

/-- Decidable equality on JSON values (spelled out because the automatic
derivation does not handle the nested lists). -/
def Json.decEq : (a b : Json) → Decidable (a = b)
  | .null, .null => isTrue rfl
  | .null, .bool _ => isFalse (fun h => Json.noConfusion h)
  | .null, .num _ => isFalse (fun h => Json.noConfusion h)
  | .null, .str _ => isFalse (fun h => Json.noConfusion h)
  | .null, .arr _ => isFalse (fun h => Json.noConfusion h)
  | .null, .obj _ => isFalse (fun h => Json.noConfusion h)
  | .bool _, .null => isFalse (fun h => Json.noConfusion h)
  | .bool a, .bool b =>
    match Bool.decEq a b with
    | isTrue h => isTrue (by rw [h])
    | isFalse h => isFalse (fun hh => h (by injection hh))
  | .bool _, .num _ => isFalse (fun h => Json.noConfusion h)
  | .bool _, .str _ => isFalse (fun h => Json.noConfusion h)
  | .bool _, .arr _ => isFalse (fun h => Json.noConfusion h)
  | .bool _, .obj _ => isFalse (fun h => Json.noConfusion h)
  | .num _, .null => isFalse (fun h => Json.noConfusion h)
  | .num _, .bool _ => isFalse (fun h => Json.noConfusion h)
  | .num a, .num b =>
    match Int.decEq a b with
    | isTrue h => isTrue (by rw [h])
    | isFalse h => isFalse (fun hh => h (by injection hh))
  | .num _, .str _ => isFalse (fun h => Json.noConfusion h)
  | .num _, .arr _ => isFalse (fun h => Json.noConfusion h)
  | .num _, .obj _ => isFalse (fun h => Json.noConfusion h)
  | .str _, .null => isFalse (fun h => Json.noConfusion h)
  | .str _, .bool _ => isFalse (fun h => Json.noConfusion h)
  | .str _, .num _ => isFalse (fun h => Json.noConfusion h)
  | .str a, .str b =>
    match String.decEq a b with
    | isTrue h => isTrue (by rw [h])
    | isFalse h => isFalse (fun hh => h (by injection hh))
  | .str _, .arr _ => isFalse (fun h => Json.noConfusion h)
  | .str _, .obj _ => isFalse (fun h => Json.noConfusion h)
  | .arr _, .null => isFalse (fun h => Json.noConfusion h)
  | .arr _, .bool _ => isFalse (fun h => Json.noConfusion h)
  | .arr _, .num _ => isFalse (fun h => Json.noConfusion h)
  | .arr _, .str _ => isFalse (fun h => Json.noConfusion h)
  | .arr a, .arr b =>
    match Json.decEqList a b with
    | isTrue h => isTrue (by rw [h])
    | isFalse h => isFalse (fun hh => h (by injection hh))
  | .arr _, .obj _ => isFalse (fun h => Json.noConfusion h)
  | .obj _, .null => isFalse (fun h => Json.noConfusion h)
  | .obj _, .bool _ => isFalse (fun h => Json.noConfusion h)
  | .obj _, .num _ => isFalse (fun h => Json.noConfusion h)
  | .obj _, .str _ => isFalse (fun h => Json.noConfusion h)
  | .obj _, .arr _ => isFalse (fun h => Json.noConfusion h)
  | .obj a, .obj b =>
    match Json.decEqObj a b with
    | isTrue h => isTrue (by rw [h])
    | isFalse h => isFalse (fun hh => h (by injection hh))

/-- Decidable equality on lists of JSON values. -/
def Json.decEqList : (a b : List Json) → Decidable (a = b)
  | [], [] => isTrue rfl
  | [], _ :: _ => isFalse (fun h => List.noConfusion h)
  | _ :: _, [] => isFalse (fun h => List.noConfusion h)
  | x :: xs, y :: ys =>
    match Json.decEq x y, Json.decEqList xs ys with
    | isTrue h1, isTrue h2 => isTrue (by rw [h1, h2])
    | isFalse h1, _ => isFalse (fun h => h1 (by injection h))
    | _, isFalse h2 => isFalse (fun h => h2 (by injection h))

/-- Decidable equality on JSON object field lists. -/
def Json.decEqObj : (a b : List (String × Json)) → Decidable (a = b)
  | [], [] => isTrue rfl
  | [], _ :: _ => isFalse (fun h => List.noConfusion h)
  | _ :: _, [] => isFalse (fun h => List.noConfusion h)
  | (k1, v1) :: xs, (k2, v2) :: ys =>
    match String.decEq k1 k2, Json.decEq v1 v2, Json.decEqObj xs ys with
    | isTrue h1, isTrue h2, isTrue h3 => isTrue (by rw [h1, h2, h3])
    | isFalse h1, _, _ =>
      isFalse (fun h => h1 (by injection h with hh ht; injection hh))
    | _, isFalse h2, _ =>
      isFalse (fun h => h2 (by injection h with hh ht; injection hh))
    | _, _, isFalse h3 => isFalse (fun h => h3 (by injection h))

end

instance : DecidableEq Json := Json.decEq

/-- A JSON object body, i.e. a Python `Dict[str, Any]` of JSON values. -/
abbrev JObj := List (String × Json)

/-- Python truthiness of a JSON value (`None`, `False`, `0`, `""`, `[]`,
and the empty dict are falsy). -/
def Json.truthy : Json → Bool
  | .null => false
  | .bool b => b
  | .num n => decide (n ≠ 0)
  | .str s => decide (s ≠ "")
  | .arr xs => !xs.isEmpty
  | .obj fs => !fs.isEmpty

/-- First binding of a key in a JSON object, like Python dict lookup. -/
def jlookup : JObj → String → Option Json
  | [], _ => none
  | (k, v) :: rest, key => if k = key then some v else jlookup rest key

/-- Python `d.get(key)`: the stored value, or `None` when the key is absent. -/
def oget (fields : JObj) (key : String) : Json :=
  (jlookup fields key).getD Json.null

/-- Python `d.get(key, default)`. -/
def jgetD (fields : JObj) (key : String) (default : Json) : Json :=
  (jlookup fields key).getD default

/-- Python `a or b`: `a` when truthy, else `b`. -/
def pyOr (a b : Json) : Json :=
  if a.truthy then a else b

set_option maxRecDepth 4096

/-- A Python `datetime` value (naive, as used throughout the source). -/
structure PyDateTime where
  year : Nat
  month : Nat
  day : Nat
  hour : Nat
  minute : Nat
  second : Nat
  microsecond : Nat
deriving Repr, DecidableEq

/-- Accumulate decimal digit characters into a natural number. -/
def digitsToNat : List Char → Nat → Nat
  | [], acc => acc
  | c :: cs, acc => digitsToNat cs (acc * 10 + (c.toNat - '0'.toNat))

/-- Parse a nonempty all-digit character list. -/
def parseNatDigits (cs : List Char) : Option Nat :=
  if cs.isEmpty then none
  else if cs.all (fun c => c.isDigit) then some (digitsToNat cs 0) else none

/-- Scale a fractional-second digit count to microseconds, as Python does
when parsing a `.f`, `.ff`, ... `.ffffff` suffix. -/
def fracToMicro (cs : List Char) : Option Nat :=
  if cs.length = 0 ∨ cs.length > 6 then none
  else (parseNatDigits cs).map (fun n => n * 10 ^ (6 - cs.length))

/-- Gregorian leap-year test, as CPython's `datetime` uses for
validation. -/
def isLeapYear (y : Nat) : Bool :=
  y % 4 = 0 && (y % 100 ≠ 0 || y % 400 = 0)

/-- The number of days in a month of a given year, as CPython's `datetime`
constructor validates against. -/
def daysInMonth (y mo : Nat) : Nat :=
  if mo = 2 then (if isLeapYear y then 29 else 28)
  else if mo = 4 ∨ mo = 6 ∨ mo = 9 ∨ mo = 11 then 30
  else 31

/-- Model of Python `datetime.fromisoformat` on the canonical
`YYYY-MM-DD[THH:MM:SS[.ffffff]]` shapes produced by `isoformat`; any other
shape or out-of-range component — including a year below `MINYEAR = 1` or
a day that does not exist in the given month and year — is rejected (a
`ValueError` in Python). -/
def fromisoformat (s : String) : Option PyDateTime :=
  match s.data with
  | y1 :: y2 :: y3 :: y4 :: '-' :: m1 :: m2 :: '-' :: d1 :: d2 :: rest => do
    let y ← parseNatDigits [y1, y2, y3, y4]
    let mo ← parseNatDigits [m1, m2]
    let d ← parseNatDigits [d1, d2]
    if 1 ≤ y ∧ 1 ≤ mo ∧ mo ≤ 12 ∧ 1 ≤ d ∧ d ≤ daysInMonth y mo then
      match rest with
      | [] => some ⟨y, mo, d, 0, 0, 0, 0⟩
      | 'T' :: h1 :: h2 :: ':' :: mi1 :: mi2 :: ':' :: s1 :: s2 :: rest2 => do
        let h ← parseNatDigits [h1, h2]
        let mi ← parseNatDigits [mi1, mi2]
        let se ← parseNatDigits [s1, s2]
        if h ≤ 23 ∧ mi ≤ 59 ∧ se ≤ 59 then
          match rest2 with
          | [] => some ⟨y, mo, d, h, mi, se, 0⟩
          | '.' :: frac => do
            let micro ← fracToMicro frac
            some ⟨y, mo, d, h, mi, se, micro⟩
          | _ => none
        else none
      | _ => none
    else none
  | _ => none

/-- Embeds `_parse_iso_datetime`: strip one trailing `Z`, then parse.  The
source's retry loop calls `datetime.fromisoformat` identically in every
iteration and in the fallback, so it collapses to a single parse; `none`
stands for the uncaught `ValueError` of the fallback call. -/
def parse_iso_datetime (dt_str : String) : Option PyDateTime :=
  let s :=
    if dt_str.data.getLast? = some 'Z' then String.mk dt_str.data.dropLast
    else dt_str
  fromisoformat s

example : parse_iso_datetime "2025-02-31" = none := by decide
example : parse_iso_datetime "2023-02-29" = none := by decide
example : parse_iso_datetime "0000-01-01" = none := by decide
example : parse_iso_datetime "2024-02-29" = some ⟨2024, 2, 29, 0, 0, 0, 0⟩ := by
  decide
example : parse_iso_datetime "2025-09-15T10:00:00Z" =
    some ⟨2025, 9, 15, 10, 0, 0, 0⟩ := by decide

/-- Escape one character the way `json.dumps` does for the characters that
require it. -/
def jescapeChar (c : Char) : String :=
  if c = '"' then "\\\""
  else if c = '\\' then "\\\\"
  else if c = '\n' then "\\n"
  else if c = '\t' then "\\t"
  else if c = '\r' then "\\r"
  else String.singleton c

/-- Serialize a string with surrounding quotes, as `json.dumps` does. -/
def jdumpStr (s : String) : String :=
  "\"" ++ String.join (s.data.map jescapeChar) ++ "\""

mutual

/-- Model of `json.dumps` with its default separators. -/
def jdump : Json → String
  | .null => "null"
  | .bool true => "true"
  | .bool false => "false"
  | .num n => toString n
  | .str s => jdumpStr s
  | .arr xs => "[" ++ jdumpList xs ++ "]"
  | .obj fs => "\x7b" ++ jdumpObj fs ++ "\x7d"

/-- Comma-separated serialization of array members. -/
def jdumpList : List Json → String
  | [] => ""
  | [x] => jdump x
  | x :: y :: rest => jdump x ++ ", " ++ jdumpList (y :: rest)

/-- Comma-separated serialization of object fields. -/
def jdumpObj : List (String × Json) → String
  | [] => ""
  | [(k, v)] => jdumpStr k ++ ": " ++ jdump v
  | (k, v) :: kv :: rest => jdumpStr k ++ ": " ++ jdump v ++ ", " ++ jdumpObj (kv :: rest)

end

/-- The `ClickEvent` ORM model from `sqlalchemy_setup.py`: one row of the
`click_events` table.  Column values keep the JSON value assigned by
`transform_event` (`Json.null` standing for SQL NULL / Python `None`). -/
structure ClickEvent where
  id : Json
  distinct_id : Json
  timestamp : PyDateTime
  current_url : Json
  pathname : Json
  event_type : Json
  element_text : Json
  element_tag : Json
  element_href : Json
  browser : Json
  os : Json
  country_code : Json
  referrer : Json
  referring_domain : Json
  city_name : Json
  region_name : Json
  country_name : Json
  postal_code : Json
  latitude : Json
  longitude : Json
  device_type : Json
  os_version : Json
  browser_version : Json
  viewport_width : Json
  viewport_height : Json
  session_id : Json
  raw_data : String
deriving Repr, DecidableEq

/-- Decidable equality for `Except` results, so that concrete runs of the
embedded functions can be checked by `decide`. -/
instance {ε α : Type} [DecidableEq ε] [DecidableEq α] : DecidableEq (Except ε α)
  | .error a, .error b =>
    match decEq a b with
    | isTrue h => isTrue (by rw [h])
    | isFalse h => isFalse (fun hh => h (by injection hh))
  | .error _, .ok _ => isFalse (fun h => Except.noConfusion h)
  | .ok _, .error _ => isFalse (fun h => Except.noConfusion h)
  | .ok a, .ok b =>
    match decEq a b with
    | isTrue h => isTrue (by rw [h])
    | isFalse h => isFalse (fun hh => h (by injection hh))

/-- The timestamp step of `transform_event`: `event.get("timestamp")` is
parsed when truthy (a non-string raises `AttributeError` at `.endswith`, an
unparseable string raises `ValueError`), else the current time is used. -/
def transform_timestamp (now : PyDateTime) (event : JObj) : Except String PyDateTime :=
  let tsVal := oget event "timestamp"
  if tsVal.truthy then
    match tsVal with
    | .str s =>
      match parse_iso_datetime s with
      | some d => .ok d
      | none => .error "ValueError: invalid isoformat string"
    | _ => .error "AttributeError: object has no attribute endswith"
  else .ok now

/-- Python `x.get(...)` on a non-dict raises `AttributeError`. -/
def asObj : Json → Except String JObj
  | .obj fs => .ok fs
  | _ => .error "AttributeError: object has no attribute get"

/-- Embeds `elements[0] if elements else {}`: first member when truthy, the
empty dict when falsy, and a `TypeError`/`AttributeError` (collapsed to one
error) when a truthy non-list ends up being indexed. -/
def firstElement (elements : Json) : Except String Json :=
  if elements.truthy then
    match elements with
    | .arr (x :: _) => .ok x
    | _ => .error "TypeError: object is not an indexable list of dicts"
  else .ok (Json.obj [])

/-- The field-extraction half of `transform_event` (everything after the
timestamp is computed), building the `ClickEvent` constructor call from
lines 197-225 of `utils.py`. -/
def transform_fields (timestamp : PyDateTime) (event : JObj) : Except String ClickEvent :=
  match asObj (pyOr (oget event "properties") (Json.obj [])) with
  | .error m => .error m
  | .ok props =>
    match firstElement (pyOr (oget event "elements") (Json.arr [])) with
    | .error m => .error m
    | .ok firstJ =>
      match asObj firstJ with
      | .error m => .error m
      | .ok first_el =>
        .ok {
          id := jgetD event "id" (Json.str "")
          distinct_id := jgetD event "distinct_id" (Json.str "")
          timestamp := timestamp
          current_url := oget props "$current_url"
          pathname := oget props "$pathname"
          event_type := oget props "$event_type"
          element_text := pyOr (oget props "$el_text") (oget first_el "text")
          element_tag := oget first_el "tag_name"
          element_href := oget first_el "href"
          browser := oget props "$browser"
          os := oget props "$os"
          country_code := oget props "$geoip_country_code"
          referrer := oget props "$referrer"
          referring_domain := oget props "$referring_domain"
          city_name := oget props "$geoip_city_name"
          region_name := oget props "$geoip_subdivision_1_name"
          country_name := oget props "$geoip_country_name"
          postal_code := oget props "$geoip_postal_code"
          latitude := oget props "$geoip_latitude"
          longitude := oget props "$geoip_longitude"
          device_type := oget props "$device_type"
          os_version := oget props "$os_version"
          browser_version := oget props "$browser_version"
          viewport_width := oget props "$viewport_width"
          viewport_height := oget props "$viewport_height"
          session_id := oget props "$session_id"
          raw_data := jdump (Json.obj event)
        }

/-- Embeds `transform_event` of `utils.py`: timestamp handling first (with
`now` standing for `datetime.utcnow()`), then field extraction. -/
def transform_event (now : PyDateTime) (event : JObj) : Except String ClickEvent :=
  match transform_timestamp now event with
  | .error m => .error m
  | .ok timestamp => transform_fields timestamp event

example :
    transform_event ⟨2025, 1, 1, 0, 0, 0, 0⟩
      [("id", Json.str "abc"), ("distinct_id", Json.str "u1"),
       ("timestamp", Json.str "2025-09-15T10:00:00Z"),
       ("properties", Json.obj [("$current_url", Json.str "x")]),
       ("elements", Json.arr [Json.obj [("tag_name", Json.str "button"),
         ("href", Json.null), ("text", Json.str "Click")]])] =
    .ok {
      id := Json.str "abc", distinct_id := Json.str "u1",
      timestamp := ⟨2025, 9, 15, 10, 0, 0, 0⟩,
      current_url := Json.str "x", pathname := Json.null,
      event_type := Json.null, element_text := Json.str "Click",
      element_tag := Json.str "button", element_href := Json.null,
      browser := Json.null, os := Json.null, country_code := Json.null,
      referrer := Json.null, referring_domain := Json.null,
      city_name := Json.null, region_name := Json.null,
      country_name := Json.null, postal_code := Json.null,
      latitude := Json.null, longitude := Json.null,
      device_type := Json.null, os_version := Json.null,
      browser_version := Json.null, viewport_width := Json.null,
      viewport_height := Json.null, session_id := Json.null,
      raw_data := jdump (Json.obj
        [("id", Json.str "abc"), ("distinct_id", Json.str "u1"),
         ("timestamp", Json.str "2025-09-15T10:00:00Z"),
         ("properties", Json.obj [("$current_url", Json.str "x")]),
         ("elements", Json.arr [Json.obj [("tag_name", Json.str "button"),
           ("href", Json.null), ("text", Json.str "Click")]])]) } := by
  decide

/-- The persisted `click_events` table: the list of committed rows. -/
structure DB where
  rows : List ClickEvent
deriving Repr, DecidableEq

/-- The loop body of `store_events`: walk the batch, transform each event,
skip it when a row with the same primary key is already visible to the
session (committed rows plus rows staged earlier in this batch, which
SQLAlchemy's autoflushing `Session.get` sees), otherwise stage it and count
it.  A transform exception aborts the loop. -/
def store_go (now : PyDateTime) (dbRows : List ClickEvent) :
    List JObj → List ClickEvent → Nat → Except String (List ClickEvent × Nat)
  | [], staged, inserted_count => .ok (staged, inserted_count)
  | evt :: rest, staged, inserted_count =>
    match transform_event now evt with
    | .error m => .error m
    | .ok model =>
      if (dbRows ++ staged).any (fun r => r.id == model.id) then
        store_go now dbRows rest staged inserted_count
      else
        store_go now dbRows rest (staged ++ [model]) (inserted_count + 1)

/-- Embeds `store_events` of `utils.py`.  The result pairs the table state
after the call with either the returned insert count or the propagated
exception; on any exception the rollback leaves the table unchanged.
`commitOk` models whether the final `db.commit()` succeeds. -/
def store_events (now : PyDateTime) (commitOk : Bool) (db : DB)
    (events : List JObj) : DB × Except String Nat :=
  match store_go now db.rows events [] 0 with
  | .error m => (db, .error m)
  | .ok (staged, inserted_count) =>
    if commitOk then (⟨db.rows ++ staged⟩, .ok inserted_count)
    else (db, .error "OperationalError: commit failed")

/-- The query parameters of the initial events request. -/
structure Params where
  after : String
  before : String
  event : String
  limit : Int
deriving Repr, DecidableEq

/-- One HTTP GET issued by `fetch_events`: the URL, and the `params`
dictionary when one is passed (the initial request only, per the source). -/
structure Request where
  url : String
  params : Option Params
deriving Repr, DecidableEq

/-- A parsed response body: the `results` list and the optional `next`
continuation cursor. -/
structure Page where
  results : List JObj
  next : Option String
deriving Repr, DecidableEq

/-- The pagination loop of `fetch_events`.  `provider` models the remote
API: `.error` is a non-success response, which `raise_for_status` turns
into an exception.  The issued requests are accumulated alongside so that
the specification can talk about them; `fuel` bounds the number of
iterations (the Python loop has no such bound and would follow cursors
forever, which exhausted fuel reports as an error). -/
def fetch_go (provider : Request → Except String Page) (url : String)
    (params : Params) :
    Nat → String → List JObj → List Request → List Request × Except String (List JObj)
  | 0, _, _, reqs => (reqs, .error "model: fuel exhausted")
  | fuel + 1, next_url, events, reqs =>
    let rq : Request :=
      if next_url = url then ⟨next_url, some params⟩ else ⟨next_url, none⟩
    match provider rq with
    | .error m => (reqs ++ [rq], .error m)
    | .ok page =>
      match page.next with
      | none => (reqs ++ [rq], .ok (events ++ page.results))
      | some u => fetch_go provider url params fuel u (events ++ page.results) (reqs ++ [rq])

/-- The environment variables visible to the process. -/
abbrev Env := List (String × String)

/-- Python `os.getenv(key)`. -/
def getenv : Env → String → Option String
  | [], _ => none
  | (k, v) :: rest, key => if k = key then some v else getenv rest key

/-- Python truthiness of an optional string (unset and empty are falsy). -/
def truthyStrOpt : Option String → Bool
  | none => false
  | some s => decide (s ≠ "")

/-- The `EnvironmentError` message of `_get_posthog_config`. -/
def posthogErr : String :=
  "POSTHOG_API_KEY and POSTHOG_PROJECT_ID must be set in the environment."

/-- The `EnvironmentError` message of the `sqlalchemy_setup.py` module
body. -/
def dbCredsErr : String :=
  "Database credentials are not fully specified in environment variables. Please set DB_USER, DB_PASS, DB_HOST, DB_PORT, and DB_NAME."

/-- The dictionary returned by `_get_posthog_config`. -/
structure PosthogConfig where
  api_key : String
  project_id : String
  base_url : String
deriving Repr, DecidableEq

/-- Python `str.rstrip("/")`. -/
def rstripSlash (s : String) : String :=
  String.mk ((s.data.reverse.dropWhile (fun c => c = '/')).reverse)

/-- Embeds `_get_posthog_config`: read the two required variables, raise
`EnvironmentError` when either is unset or empty, and default the base
host before stripping trailing slashes. -/
def get_posthog_config (env : Env) : Except String PosthogConfig :=
  match getenv env "POSTHOG_API_KEY", getenv env "POSTHOG_PROJECT_ID" with
  | some api_key, some project_id =>
    if api_key = "" ∨ project_id = "" then
      .error posthogErr
    else
      .ok ⟨api_key, project_id,
        rstripSlash ((getenv env "POSTHOG_BASE_HOST").getD "https://us.posthog.com")⟩
  | _, _ =>
    .error posthogErr

/-- The events endpoint URL built at the top of `fetch_events`. -/
def events_url (cfg : PosthogConfig) : String :=
  cfg.base_url ++ "/api/projects/" ++ cfg.project_id ++ "/events/"

/-- Embeds `fetch_events` of `utils.py`: resolve configuration, build the
endpoint URL and parameters, then run the pagination loop.  The issued
request trace is returned alongside the result for specification purposes
(the Python function returns only the events). -/
def fetch_events (env : Env) (provider : Request → Except String Page)
    (after before event_name : String) (limit : Int) (fuel : Nat) :
    List Request × Except String (List JObj) :=
  match get_posthog_config env with
  | .error m => ([], .error m)
  | .ok cfg =>
    let url := events_url cfg
    fetch_go provider url ⟨after, before, event_name, limit⟩ fuel url [] []

/-- Zero-pad a number to two digits, as `datetime.isoformat` prints it. -/
def pad2 (n : Nat) : String :=
  if n < 10 then "0" ++ toString n else toString n

/-- Zero-pad a year to four digits. -/
def pad4 (n : Nat) : String :=
  if n < 10 then "000" ++ toString n
  else if n < 100 then "00" ++ toString n
  else if n < 1000 then "0" ++ toString n
  else toString n

/-- Zero-pad microseconds to six digits. -/
def pad6 (n : Nat) : String :=
  if n < 10 then "00000" ++ toString n
  else if n < 100 then "0000" ++ toString n
  else if n < 1000 then "000" ++ toString n
  else if n < 10000 then "00" ++ toString n
  else if n < 100000 then "0" ++ toString n
  else toString n

/-- Python `datetime.isoformat()` on a naive value. -/
def PyDateTime.isoformat (dt : PyDateTime) : String :=
  pad4 dt.year ++ "-" ++ pad2 dt.month ++ "-" ++ pad2 dt.day ++ "T" ++
    pad2 dt.hour ++ ":" ++ pad2 dt.minute ++ ":" ++ pad2 dt.second ++
    (if dt.microsecond = 0 then "" else "." ++ pad6 dt.microsecond)

/-- The `to_iso` helper inside `sync_posthog_events`: naive isoformat with
a `Z` suffix appended. -/
def to_iso (dt : PyDateTime) : String :=
  dt.isoformat ++ "Z"

/-- Embeds `sync_posthog_events` of `utils.py`: fetch, then store, with the
fetch exception propagating untouched.  `now` stands for the
`datetime.utcnow()` observed during this run's transforms. -/
def sync_posthog_events (env : Env) (provider : Request → Except String Page)
    (now : PyDateTime) (commitOk : Bool) (db : DB)
    (start stop : PyDateTime) (event_name : String) (limit : Int)
    (fuel : Nat) : DB × Except String Nat :=
  match (fetch_events env provider (to_iso start) (to_iso stop) event_name limit fuel).2 with
  | .error m => (db, .error m)
  | .ok events => store_events now commitOk db events

/-- Embeds the module-level credential check of `sqlalchemy_setup.py`
(lines 57-67): all five variables must be set and nonempty. -/
def db_env_check (env : Env) : Except String Unit :=
  if [getenv env "DB_USER", getenv env "DB_PASS", getenv env "DB_HOST",
      getenv env "DB_PORT", getenv env "DB_NAME"].all truthyStrOpt then
    .ok ()
  else
    .error dbCredsErr

/-- A successful `store_go` run extends the staged list monotonically, its
counter counts exactly the staged additions and at most one per event, and
every event of the batch has a transformed primary key visible among the
committed-plus-staged rows afterwards. -/
theorem store_go_ok_spec (now : PyDateTime) (dbRows : List ClickEvent) :
    ∀ (evts : List JObj) (staged : List ClickEvent) (c : Nat)
      (staged' : List ClickEvent) (c' : Nat),
      store_go now dbRows evts staged c = .ok (staged', c') →
      (∃ t, staged' = staged ++ t) ∧
      staged'.length + c = staged.length + c' ∧
      c' ≤ c + evts.length ∧
      (∀ e ∈ evts, ∃ m, transform_event now e = .ok m ∧
        m.id ∈ (dbRows ++ staged').map (fun r => r.id)) := by
  intro evts
  induction evts with
  | nil =>
    intro staged c staged' c' h
    simp only [store_go, Except.ok.injEq, Prod.mk.injEq] at h
    obtain ⟨h1, h2⟩ := h
    subst h1; subst h2
    exact ⟨⟨[], by simp⟩, by simp, by simp, by simp⟩
  | cons e rest ih =>
    intro staged c staged' c' h
    cases ht : transform_event now e with
    | error m => simp [store_go, ht] at h
    | ok model =>
      simp only [store_go, ht] at h
      by_cases hdup : (dbRows ++ staged).any (fun r => r.id == model.id) = true
      · rw [if_pos hdup] at h
        obtain ⟨⟨t, hT⟩, hc, hle, hcov⟩ := ih staged c staged' c' h
        refine ⟨⟨t, hT⟩, hc, by simp only [List.length_cons]; omega, ?_⟩
        intro e' he'
        rcases List.mem_cons.mp he' with he' | he'
        · subst he'
          refine ⟨model, ht, ?_⟩
          rw [List.any_eq_true] at hdup
          obtain ⟨r, hr, hrid⟩ := hdup
          rw [beq_iff_eq] at hrid
          rw [List.mem_map]
          refine ⟨r, ?_, hrid⟩
          rw [hT] at *
          rcases List.mem_append.mp hr with h' | h'
          · exact List.mem_append_left _ h'
          · exact List.mem_append_right _ (List.mem_append_left _ h')
        · exact hcov e' he'
      · rw [if_neg hdup] at h
        obtain ⟨⟨t, hT⟩, hc, hle, hcov⟩ := ih (staged ++ [model]) (c + 1) staged' c' h
        refine ⟨⟨[model] ++ t, by rw [hT, List.append_assoc]⟩, ?_,
          by simp only [List.length_cons]; omega, ?_⟩
        · rw [List.length_append] at hc; simp only [List.length_singleton] at hc; omega
        · intro e' he'
          rcases List.mem_cons.mp he' with he' | he'
          · subst he'
            refine ⟨model, ht, ?_⟩
            rw [List.mem_map]
            refine ⟨model, ?_, rfl⟩
            rw [hT]
            exact List.mem_append_right _
              (List.mem_append_left _ (List.mem_append_right _ (List.mem_singleton_self model)))
          · exact hcov e' he'

/-- `store_go` preserves primary-key uniqueness of the visible rows. -/
theorem store_go_nodup (now : PyDateTime) (dbRows : List ClickEvent) :
    ∀ (evts : List JObj) (staged : List ClickEvent) (c : Nat)
      (staged' : List ClickEvent) (c' : Nat),
      ((dbRows ++ staged).map (fun r => r.id)).Nodup →
      store_go now dbRows evts staged c = .ok (staged', c') →
      ((dbRows ++ staged').map (fun r => r.id)).Nodup := by
  intro evts
  induction evts with
  | nil =>
    intro staged c staged' c' hnd h
    simp only [store_go, Except.ok.injEq, Prod.mk.injEq] at h
    obtain ⟨h1, _⟩ := h
    subst h1
    exact hnd
  | cons e rest ih =>
    intro staged c staged' c' hnd h
    cases ht : transform_event now e with
    | error m => simp [store_go, ht] at h
    | ok model =>
      simp only [store_go, ht] at h
      by_cases hdup : (dbRows ++ staged).any (fun r => r.id == model.id) = true
      · rw [if_pos hdup] at h
        exact ih staged c staged' c' hnd h
      · rw [if_neg hdup] at h
        refine ih (staged ++ [model]) (c + 1) staged' c' ?_ h
        have hassoc : dbRows ++ (staged ++ [model]) = (dbRows ++ staged) ++ [model] := by
          rw [List.append_assoc]
        rw [hassoc, List.map_append]
        refine List.Nodup.append hnd (by simp) ?_
        intro x hx hx2
        simp only [List.map_cons, List.map_nil, List.mem_singleton] at hx2
        subst hx2
        rw [List.mem_map] at hx
        obtain ⟨r, hr, hrid⟩ := hx
        apply hdup
        rw [List.any_eq_true]
        exact ⟨r, hr, by rw [beq_iff_eq]; exact hrid⟩

/-- When every transform succeeds, the `store_events` loop itself cannot
fail: duplicates are skipped silently rather than raising. -/
theorem store_go_ok_of_transform (now : PyDateTime) (dbRows : List ClickEvent) :
    ∀ (evts : List JObj) (staged : List ClickEvent) (c : Nat),
      (∀ e ∈ evts, (transform_event now e).isOk = true) →
      ∃ staged' c', store_go now dbRows evts staged c = .ok (staged', c') := by
  intro evts
  induction evts with
  | nil => intro staged c _; exact ⟨staged, c, rfl⟩
  | cons e rest ih =>
    intro staged c hall
    have he := hall e (List.mem_cons_self e rest)
    cases ht : transform_event now e with
    | error m => rw [ht] at he; simp [Except.isOk, Except.toBool] at he
    | ok model =>
      have hrest : ∀ e' ∈ rest, (transform_event now e').isOk = true :=
        fun e' he' => hall e' (List.mem_cons_of_mem e he')
      by_cases hdup : (dbRows ++ staged).any (fun r => r.id == model.id) = true
      · obtain ⟨staged', c', hgo⟩ := ih staged c hrest
        exact ⟨staged', c', by simp only [store_go, ht, if_pos hdup]; exact hgo⟩
      · obtain ⟨staged', c', hgo⟩ := ih (staged ++ [model]) (c + 1) hrest
        exact ⟨staged', c', by simp only [store_go, ht, if_neg hdup]; exact hgo⟩

/-- When every event's transformed primary key is already present among the
committed rows, the whole batch is skipped: nothing staged, zero counted. -/
theorem store_go_all_dup (now : PyDateTime) (dbRows : List ClickEvent) :
    ∀ (evts : List JObj),
      (∀ e ∈ evts, ∃ m, transform_event now e = .ok m ∧
        m.id ∈ dbRows.map (fun r => r.id)) →
      store_go now dbRows evts [] 0 = .ok ([], 0) := by
  intro evts
  induction evts with
  | nil => intro _; rfl
  | cons e rest ih =>
    intro hall
    obtain ⟨m, hm, hmem⟩ := hall e (List.mem_cons_self e rest)
    have hdup : (dbRows ++ []).any (fun r => r.id == m.id) = true := by
      rw [List.any_eq_true]
      rw [List.mem_map] at hmem
      obtain ⟨r, hr, hrid⟩ := hmem
      exact ⟨r, by rw [List.append_nil]; exact hr, by rw [beq_iff_eq]; exact hrid⟩
    simp only [store_go, hm, if_pos hdup]
    exact ih (fun e' he' => hall e' (List.mem_cons_of_mem e he'))

/-- A timestamp-step failure does not depend on which instant `utcnow`
returned. -/
theorem transform_timestamp_err (now1 now2 : PyDateTime) (e : JObj) (m : String)
    (h : transform_timestamp now1 e = .error m) :
    transform_timestamp now2 e = .error m := by
  unfold transform_timestamp at h ⊢
  by_cases htr : (oget e "timestamp").truthy = true
  · rw [if_pos htr] at h; rw [if_pos htr]; exact h
  · rw [if_neg htr] at h; simp at h

/-- The extracted fields other than the timestamp do not depend on the
timestamp value; in particular the primary key is unchanged. -/
theorem transform_fields_ok_id (ts1 ts2 : PyDateTime) (e : JObj) (r1 : ClickEvent)
    (h : transform_fields ts1 e = .ok r1) :
    ∃ r2, transform_fields ts2 e = .ok r2 ∧ r2.id = r1.id := by
  unfold transform_fields at h ⊢
  split at h
  next m heq => simp at h
  next props heq =>
    split at h
    next m heq2 => simp at h
    next firstJ heq2 =>
      split at h
      next m heq3 => simp at h
      next first_el heq3 =>
        injection h with h1
        exact ⟨_, rfl, by rw [← h1]⟩

/-- A successful transform stays successful, with the same primary key,
when re-run at a different current time. -/
theorem transform_event_ok_id (now1 now2 : PyDateTime) (e : JObj) (r1 : ClickEvent)
    (h : transform_event now1 e = .ok r1) :
    ∃ r2, transform_event now2 e = .ok r2 ∧ r2.id = r1.id := by
  unfold transform_event at h ⊢
  cases h1 : transform_timestamp now1 e with
  | error m => rw [h1] at h; simp at h
  | ok d1 =>
    rw [h1] at h
    cases h2 : transform_timestamp now2 e with
    | error m =>
      have := transform_timestamp_err now2 now1 e m h2
      rw [h1] at this
      simp at this
    | ok d2 => exact transform_fields_ok_id d1 d2 e r1 h

/-- A fixed instant standing for `datetime.utcnow()` in concrete runs. -/
def dt0 : PyDateTime := ⟨2025, 1, 1, 0, 0, 0, 0⟩

/-- A sample persisted row with primary key `"a"`, used in concrete runs. -/
def sampleRow : ClickEvent :=
  ⟨Json.str "a", Json.str "u", ⟨2025, 1, 1, 0, 0, 0, 0⟩, Json.null,
    Json.null, Json.null, Json.null, Json.null, Json.null, Json.null,
    Json.null, Json.null, Json.null, Json.null, Json.null, Json.null,
    Json.null, Json.null, Json.null, Json.null, Json.null, Json.null,
    Json.null, Json.null, Json.null, Json.null, "x"⟩

/-- C1: if the persisted table has at most one record per id, then after
`store_events` it still has at most one record per id — covering both a
batch event whose id is already stored and an id duplicated within the
batch — and, whenever every event of the batch transforms successfully,
duplicates are skipped without raising: the call still returns a count. -/
theorem store_events_dedup (now : PyDateTime) (commitOk : Bool) (db : DB)
    (events : List JObj)
    (h : (db.rows.map (fun r => r.id)).Nodup) :
    (((store_events now commitOk db events).1.rows.map (fun r => r.id)).Nodup) ∧
    ((∀ e ∈ events, (transform_event now e).isOk = true) →
      ∃ n, (store_events now true db events).2 = .ok n) := by
  constructor
  · unfold store_events
    cases hg : store_go now db.rows events [] 0 with
    | error m => simpa using h
    | ok p =>
      obtain ⟨staged, c⟩ := p
      have hnd : ((db.rows ++ staged).map (fun r => r.id)).Nodup := by
        refine store_go_nodup now db.rows events [] 0 staged c ?_ hg
        simpa using h
      by_cases hcommit : commitOk = true
      · rw [hcommit]
        simpa using hnd
      · rw [Bool.not_eq_true] at hcommit
        rw [hcommit]
        simpa using h
  · intro hall
    obtain ⟨staged, c, hgo⟩ := store_go_ok_of_transform now db.rows events [] 0 hall
    refine ⟨c, ?_⟩
    unfold store_events
    rw [hgo]
    simp

/-- A closed instance of `store_events_dedup`: the table already holds id
`"a"`, and the batch repeats id `"a"` and duplicates id `"b"`; afterwards
the ids are still pairwise distinct and the call returns a count. -/
theorem store_events_dedup_witness :
    (((DB.mk [sampleRow]).rows.map (fun r => r.id)).Nodup) ∧
    ((((store_events dt0 true (DB.mk [sampleRow])
        [[("id", Json.str "a")], [("id", Json.str "b")],
         [("id", Json.str "b")]]).1.rows.map (fun r => r.id)).Nodup) ∧
      ((∀ e ∈ [[("id", Json.str "a")], [("id", Json.str "b")],
          [("id", Json.str "b")]],
          (transform_event dt0 e).isOk = true) →
        ∃ n, (store_events dt0 true (DB.mk [sampleRow])
          [[("id", Json.str "a")], [("id", Json.str "b")],
           [("id", Json.str "b")]]).2 = .ok n)) :=
  ⟨by simp [sampleRow], store_events_dedup dt0 true _ _ (by simp [sampleRow])⟩

/-- C7: when the commit fails, the whole batch rolls back — the persisted
table is exactly what it was before the call — and the failure propagates
to the caller as an error rather than a count. -/
theorem store_events_commit_failure (now : PyDateTime) (db : DB)
    (events : List JObj) :
    (store_events now false db events).1 = db ∧
    ∃ m, (store_events now false db events).2 = .error m := by
  unfold store_events
  cases hg : store_go now db.rows events [] 0 with
  | error m => exact ⟨rfl, m, rfl⟩
  | ok p =>
    obtain ⟨staged, c⟩ := p
    exact ⟨by simp, "OperationalError: commit failed", by simp⟩

/-- C8: on a successful run, the returned count is exactly the number of
newly persisted rows — the table grows by precisely that many rows, and
skipped duplicates contribute nothing to it. -/
theorem store_events_count (now : PyDateTime) (db : DB) (events : List JObj)
    (db' : DB) (n : Nat)
    (h : store_events now true db events = (db', .ok n)) :
    db'.rows.length = db.rows.length + n ∧ n ≤ events.length := by
  unfold store_events at h
  cases hg : store_go now db.rows events [] 0 with
  | error m => rw [hg] at h; simp at h
  | ok p =>
    obtain ⟨staged, c⟩ := p
    rw [hg] at h
    simp at h
    obtain ⟨hdb, hn⟩ := h
    obtain ⟨-, hlen, hle, -⟩ := store_go_ok_spec now db.rows events [] 0 staged c hg
    subst hn
    constructor
    · rw [← hdb]
      simp only [List.length_append]
      simp at hlen
      omega
    · simpa using hle

/-- A closed instance of `store_events_count`: storing a two-event batch
with one within-batch duplicate into an empty table inserts one row and
returns 1. -/
theorem store_events_count_witness :
    store_events ⟨2025, 1, 1, 0, 0, 0, 0⟩ true (DB.mk [])
        [[("id", Json.str "b")], [("id", Json.str "b")]] =
      ((store_events ⟨2025, 1, 1, 0, 0, 0, 0⟩ true (DB.mk [])
        [[("id", Json.str "b")], [("id", Json.str "b")]]).1, .ok 1) ∧
    (store_events ⟨2025, 1, 1, 0, 0, 0, 0⟩ true (DB.mk [])
        [[("id", Json.str "b")], [("id", Json.str "b")]]).1.rows.length =
      (DB.mk ([] : List ClickEvent)).rows.length + 1 ∧ 1 ≤
      ([[("id", Json.str "b")], [("id", Json.str "b")]] : List JObj).length :=
  ⟨by decide,
   store_events_count ⟨2025, 1, 1, 0, 0, 0, 0⟩ (DB.mk [])
     [[("id", Json.str "b")], [("id", Json.str "b")]] _ 1 (by decide)⟩

/-- C2: if one sync run succeeds (commit included), re-running the sync
with the same parameters against the same provider inserts nothing: the
table is unchanged and the returned count is 0.  The second run's
`utcnow` may differ. -/
theorem sync_idempotent (env : Env) (provider : Request → Except String Page)
    (now1 now2 : PyDateTime) (db db1 : DB) (start stop : PyDateTime)
    (event_name : String) (limit : Int) (fuel : Nat) (n1 : Nat)
    (h1 : sync_posthog_events env provider now1 true db start stop event_name
      limit fuel = (db1, .ok n1)) :
    sync_posthog_events env provider now2 true db1 start stop event_name
      limit fuel = (db1, .ok 0) := by
  unfold sync_posthog_events at h1 ⊢
  cases hf : (fetch_events env provider (to_iso start) (to_iso stop) event_name
      limit fuel).2 with
  | error m => rw [hf] at h1; simp at h1
  | ok E =>
    rw [hf] at h1
    show store_events now2 true db1 E = (db1, Except.ok 0)
    have h1' : store_events now1 true db E = (db1, Except.ok n1) := h1
    unfold store_events at h1'
    cases hg : store_go now1 db.rows E [] 0 with
    | error m => rw [hg] at h1'; simp at h1'
    | ok p =>
      obtain ⟨staged, c⟩ := p
      rw [hg] at h1'
      simp at h1'
      obtain ⟨hdb, -⟩ := h1'
      have hcov := (store_go_ok_spec now1 db.rows E [] 0 staged c hg).2.2.2
      have hall : ∀ e ∈ E, ∃ m, transform_event now2 e = .ok m ∧
          m.id ∈ db1.rows.map (fun r => r.id) := by
        intro e he
        obtain ⟨m, hm, hmem⟩ := hcov e he
        obtain ⟨m2, hm2, hid⟩ := transform_event_ok_id now1 now2 e m hm
        refine ⟨m2, hm2, ?_⟩
        rw [hid, ← hdb]
        simpa using hmem
      have hskip := store_go_all_dup now2 db1.rows E hall
      unfold store_events
      rw [hskip]
      simp

/-- A closed instance of `sync_idempotent`: a provider that always serves
one fixed single-page result; after a first successful sync from an empty
table, the re-run returns 0 and leaves the table unchanged. -/
theorem sync_idempotent_witness :
    sync_posthog_events
        [("POSTHOG_API_KEY", "k"), ("POSTHOG_PROJECT_ID", "p")]
        (fun _ => .ok ⟨[[("id", Json.str "abc")]], none⟩)
        ⟨2025, 1, 1, 0, 0, 0, 0⟩ true (DB.mk [])
        ⟨2025, 9, 15, 0, 0, 0, 0⟩ ⟨2025, 9, 16, 0, 0, 0, 0⟩
        "$autocapture" 100 1 =
      ((sync_posthog_events
        [("POSTHOG_API_KEY", "k"), ("POSTHOG_PROJECT_ID", "p")]
        (fun _ => .ok ⟨[[("id", Json.str "abc")]], none⟩)
        ⟨2025, 1, 1, 0, 0, 0, 0⟩ true (DB.mk [])
        ⟨2025, 9, 15, 0, 0, 0, 0⟩ ⟨2025, 9, 16, 0, 0, 0, 0⟩
        "$autocapture" 100 1).1, .ok 1) ∧
    sync_posthog_events
        [("POSTHOG_API_KEY", "k"), ("POSTHOG_PROJECT_ID", "p")]
        (fun _ => .ok ⟨[[("id", Json.str "abc")]], none⟩)
        ⟨2025, 2, 2, 0, 0, 0, 0⟩ true
        (sync_posthog_events
          [("POSTHOG_API_KEY", "k"), ("POSTHOG_PROJECT_ID", "p")]
          (fun _ => .ok ⟨[[("id", Json.str "abc")]], none⟩)
          ⟨2025, 1, 1, 0, 0, 0, 0⟩ true (DB.mk [])
          ⟨2025, 9, 15, 0, 0, 0, 0⟩ ⟨2025, 9, 16, 0, 0, 0, 0⟩
          "$autocapture" 100 1).1
        ⟨2025, 9, 15, 0, 0, 0, 0⟩ ⟨2025, 9, 16, 0, 0, 0, 0⟩
        "$autocapture" 100 1 =
      ((sync_posthog_events
        [("POSTHOG_API_KEY", "k"), ("POSTHOG_PROJECT_ID", "p")]
        (fun _ => .ok ⟨[[("id", Json.str "abc")]], none⟩)
        ⟨2025, 1, 1, 0, 0, 0, 0⟩ true (DB.mk [])
        ⟨2025, 9, 15, 0, 0, 0, 0⟩ ⟨2025, 9, 16, 0, 0, 0, 0⟩
        "$autocapture" 100 1).1, .ok 0) :=
  ⟨by decide,
   sync_idempotent
     [("POSTHOG_API_KEY", "k"), ("POSTHOG_PROJECT_ID", "p")]
     (fun _ => .ok ⟨[[("id", Json.str "abc")]], none⟩)
     ⟨2025, 1, 1, 0, 0, 0, 0⟩ ⟨2025, 2, 2, 0, 0, 0, 0⟩ (DB.mk []) _
     ⟨2025, 9, 15, 0, 0, 0, 0⟩ ⟨2025, 9, 16, 0, 0, 0, 0⟩
     "$autocapture" 100 1 1 (by decide)⟩

/-- Observable startup activities of `python main.py`, in order. -/
inductive Step where
  | dbCreateTables : Step
  | httpRequest : String → Step
  | raiseError : String → Step
deriving Repr, DecidableEq

/-- Startup trace of `main.py` up to the first network request: importing
`utils` imports `sqlalchemy_setup`, whose module body checks the database
credentials and then runs `Base.metadata.create_all(engine)` against the
database; `main` then calls `sync_posthog_events`, and `fetch_events`
resolves the PostHog configuration before issuing its first GET. -/
def main_startup (env : Env) : List Step :=
  match db_env_check env with
  | .error m => [Step.raiseError m]
  | .ok _ =>
    Step.dbCreateTables ::
      match get_posthog_config env with
      | .error m => [Step.raiseError m]
      | .ok cfg => [Step.httpRequest (events_url cfg)]

/-- One unfolding of the pagination loop at the initial URL: the request
carries the query parameters. -/
theorem fetch_go_succ_initial (provider : Request → Except String Page)
    (url : String) (params : Params) (fuel : Nat) (acc : List JObj)
    (reqs : List Request) (page : Page)
    (hp : provider ⟨url, some params⟩ = .ok page) :
    fetch_go provider url params (fuel + 1) url acc reqs =
      match page.next with
      | none => (reqs ++ [⟨url, some params⟩], .ok (acc ++ page.results))
      | some u => fetch_go provider url params fuel u (acc ++ page.results)
          (reqs ++ [⟨url, some params⟩]) := by
  simp only [fetch_go, eq_self_iff_true, ite_true, hp]

/-- One unfolding of the pagination loop at a continuation cursor that
differs from the initial URL: the request carries no parameters. -/
theorem fetch_go_succ_follow (provider : Request → Except String Page)
    (url : String) (params : Params) (fuel : Nat) (next_url : String)
    (acc : List JObj) (reqs : List Request) (page : Page)
    (hne : next_url ≠ url) (hp : provider ⟨next_url, none⟩ = .ok page) :
    fetch_go provider url params (fuel + 1) next_url acc reqs =
      match page.next with
      | none => (reqs ++ [⟨next_url, none⟩], .ok (acc ++ page.results))
      | some u => fetch_go provider url params fuel u (acc ++ page.results)
          (reqs ++ [⟨next_url, none⟩]) := by
  simp only [fetch_go, if_neg hne, hp]

/-- C3: when the provider serves three pages, with continuation cursors on
the first two responses and none on the third, `fetch_events` returns
exactly the concatenation of the three results lists in order; with N
events per page that is 3N events. -/
theorem fetch_events_three_pages (env : Env)
    (provider : Request → Except String Page) (cfg : PosthogConfig)
    (after before event_name : String) (limit : Int) (u2 u3 : String)
    (p1 p2 p3 : Page) (nres f : Nat)
    (hcfg : get_posthog_config env = .ok cfg)
    (h1 : provider ⟨events_url cfg, some ⟨after, before, event_name, limit⟩⟩ = .ok p1)
    (h2 : provider ⟨u2, none⟩ = .ok p2)
    (h3 : provider ⟨u3, none⟩ = .ok p3)
    (hn1 : p1.next = some u2) (hn2 : p2.next = some u3) (hn3 : p3.next = none)
    (hu2 : u2 ≠ events_url cfg) (hu3 : u3 ≠ events_url cfg)
    (hN1 : p1.results.length = nres) (hN2 : p2.results.length = nres)
    (hN3 : p3.results.length = nres) :
    (fetch_events env provider after before event_name limit (f + 3)).2 =
      .ok (p1.results ++ p2.results ++ p3.results) ∧
    (p1.results ++ p2.results ++ p3.results).length = 3 * nres := by
  constructor
  · unfold fetch_events
    rw [hcfg]
    show (fetch_go provider (events_url cfg) ⟨after, before, event_name, limit⟩
      (f + 3) (events_url cfg) [] []).2 = _
    have step1 :
        fetch_go provider (events_url cfg) ⟨after, before, event_name, limit⟩
          (f + 3) (events_url cfg) [] [] =
        fetch_go provider (events_url cfg) ⟨after, before, event_name, limit⟩
          (f + 2) u2 p1.results [⟨events_url cfg,
            some ⟨after, before, event_name, limit⟩⟩] := by
      rw [show f + 3 = (f + 2) + 1 from rfl,
        fetch_go_succ_initial provider _ _ (f + 2) [] [] p1 h1, hn1]
      rfl
    have step2 :
        fetch_go provider (events_url cfg) ⟨after, before, event_name, limit⟩
          (f + 2) u2 p1.results [⟨events_url cfg,
            some ⟨after, before, event_name, limit⟩⟩] =
        fetch_go provider (events_url cfg) ⟨after, before, event_name, limit⟩
          (f + 1) u3 (p1.results ++ p2.results)
          [⟨events_url cfg, some ⟨after, before, event_name, limit⟩⟩,
           ⟨u2, none⟩] := by
      rw [show f + 2 = (f + 1) + 1 from rfl,
        fetch_go_succ_follow provider _ _ (f + 1) u2 p1.results _ p2 hu2 h2, hn2]
      rfl
    have step3 :
        fetch_go provider (events_url cfg) ⟨after, before, event_name, limit⟩
          (f + 1) u3 (p1.results ++ p2.results)
          [⟨events_url cfg, some ⟨after, before, event_name, limit⟩⟩,
           ⟨u2, none⟩] =
        ([⟨events_url cfg, some ⟨after, before, event_name, limit⟩⟩,
          ⟨u2, none⟩, ⟨u3, none⟩],
         .ok (p1.results ++ p2.results ++ p3.results)) := by
      rw [fetch_go_succ_follow provider _ _ f u3 (p1.results ++ p2.results) _
        p3 hu3 h3, hn3]
      rfl
    rw [step1, step2, step3]
  · rw [List.length_append, List.length_append, hN1, hN2, hN3]
    omega

/-- The sample PostHog environment used in concrete runs. -/
def env0 : Env := [("POSTHOG_API_KEY", "k"), ("POSTHOG_PROJECT_ID", "p")]

/-- The configuration `env0` resolves to. -/
def cfg0 : PosthogConfig := ⟨"k", "p", "https://us.posthog.com"⟩

/-- A provider serving three one-event pages chained by cursors. -/
def provider3 : Request → Except String Page := fun rq =>
  if rq.url = "u2" then .ok ⟨[[("id", Json.str "2")]], some "u3"⟩
  else if rq.url = "u3" then .ok ⟨[[("id", Json.str "3")]], none⟩
  else .ok ⟨[[("id", Json.str "1")]], some "u2"⟩

/-- A closed instance of `fetch_events_three_pages`: three chained pages of
one event each come back as their in-order concatenation. -/
theorem fetch_events_three_pages_witness :
    get_posthog_config env0 = .ok cfg0 ∧
    provider3 ⟨events_url cfg0, some ⟨"a", "b", "$autocapture", 100⟩⟩ =
      .ok ⟨[[("id", Json.str "1")]], some "u2"⟩ ∧
    ((fetch_events env0 provider3 "a" "b" "$autocapture" 100 3).2 =
      .ok ([[("id", Json.str "1")]] ++ [[("id", Json.str "2")]] ++
        [[("id", Json.str "3")]]) ∧
     (([[("id", Json.str "1")]] ++ [[("id", Json.str "2")]] ++
        [[("id", Json.str "3")]] : List JObj)).length = 3 * 1) :=
  ⟨by decide, by decide,
   fetch_events_three_pages env0 provider3 cfg0 "a" "b" "$autocapture" 100
     "u2" "u3" ⟨[[("id", Json.str "1")]], some "u2"⟩
     ⟨[[("id", Json.str "2")]], some "u3"⟩
     ⟨[[("id", Json.str "3")]], none⟩ 1 0 (by decide) (by decide) (by decide)
     (by decide) rfl rfl rfl (by decide) (by decide) rfl rfl rfl⟩

/-- C9 (amended): whenever the loop continues at a continuation cursor that
differs from the initially constructed endpoint URL, the follow-up request
is exactly that cursor URL with no query parameters, and the loop
terminates, returning the accumulated events, as soon as a response carries
no cursor. -/
theorem fetch_follow_cursor (provider : Request → Except String Page)
    (url : String) (params : Params) (fuel : Nat) (u : String)
    (acc : List JObj) (reqs : List Request) (page : Page)
    (hne : u ≠ url) (hp : provider ⟨u, none⟩ = .ok page) :
    (page.next = none →
      fetch_go provider url params (fuel + 1) u acc reqs =
        (reqs ++ [⟨u, none⟩], .ok (acc ++ page.results))) ∧
    (∀ v, page.next = some v →
      fetch_go provider url params (fuel + 1) u acc reqs =
        fetch_go provider url params fuel v (acc ++ page.results)
          (reqs ++ [⟨u, none⟩])) := by
  constructor
  · intro hnone
    rw [fetch_go_succ_follow provider url params fuel u acc reqs page hne hp,
      hnone]
  · intro v hsome
    rw [fetch_go_succ_follow provider url params fuel u acc reqs page hne hp,
      hsome]

/-- A provider whose every response carries a continuation cursor equal to
the initially constructed endpoint URL. -/
def providerLoop : Request → Except String Page :=
  fun _ => .ok ⟨[], some (events_url cfg0)⟩

/-- C9 counterexample: when a response's continuation cursor happens to
equal the endpoint URL built at the start of `fetch_events`, the follow-up
request is issued with the original query parameters re-applied, not with
no additional parameters as the claim states for every cursor. -/
theorem fetch_follow_cursor_counterexample :
    (fetch_events env0 providerLoop "a" "b" "$autocapture" 100 2).1 =
      [⟨events_url cfg0, some ⟨"a", "b", "$autocapture", 100⟩⟩,
       ⟨events_url cfg0, some ⟨"a", "b", "$autocapture", 100⟩⟩] ∧
    (Request.mk (events_url cfg0) (some ⟨"a", "b", "$autocapture", 100⟩)).params ≠
      none := by
  constructor
  · decide
  · decide

/-- A closed instance of `fetch_follow_cursor`: continuing at cursor `"u2"`
from base URL `"B"` issues exactly the parameterless request `⟨"u2", none⟩`
and recurses on the next cursor. -/
theorem fetch_follow_cursor_witness :
    ("u2" : String) ≠ "B" ∧
    provider3 ⟨"u2", none⟩ = .ok ⟨[[("id", Json.str "2")]], some "u3"⟩ ∧
    fetch_go provider3 "B" ⟨"a", "b", "$autocapture", 100⟩ 1 "u2" [] [] =
      fetch_go provider3 "B" ⟨"a", "b", "$autocapture", 100⟩ 0 "u3"
        ([] ++ [[("id", Json.str "2")]]) ([] ++ [⟨"u2", none⟩]) :=
  ⟨by decide, by decide,
   (fetch_follow_cursor provider3 "B" ⟨"a", "b", "$autocapture", 100⟩ 0 "u2"
     [] [] ⟨[[("id", Json.str "2")]], some "u3"⟩ (by decide) (by decide)).2
     "u3" rfl⟩

/-- The serialized form of a JSON object is never the empty string. -/
theorem jdump_obj_ne (fs : List (String × Json)) : jdump (Json.obj fs) ≠ "" := by
  intro h
  have h2 := congrArg String.length h
  simp only [jdump] at h2
  rw [String.length_append, String.length_append] at h2
  simp at h2
  exact absurd h2.1.1 (by decide)

/-- C5: an event carrying only `id` and `distinct_id` still transforms:
the record keeps both identifiers, takes the current time as its
timestamp, has every optional descriptive column null, and its `raw_data`
is the full serialization of the original event, which is nonempty. -/
theorem transform_minimal_event (i d : String) (now : PyDateTime) :
    transform_event now [("id", Json.str i), ("distinct_id", Json.str d)] =
      .ok ⟨Json.str i, Json.str d, now, Json.null, Json.null, Json.null,
        Json.null, Json.null, Json.null, Json.null, Json.null, Json.null,
        Json.null, Json.null, Json.null, Json.null, Json.null, Json.null,
        Json.null, Json.null, Json.null, Json.null, Json.null, Json.null,
        Json.null, Json.null,
        jdump (Json.obj [("id", Json.str i), ("distinct_id", Json.str d)])⟩ ∧
    jdump (Json.obj [("id", Json.str i), ("distinct_id", Json.str d)]) ≠ "" :=
  ⟨rfl, jdump_obj_ne _⟩

/-- C4 (amended): whenever the event's own text property `$el_text` holds a
truthy value (in the Python sense: not absent, not None, not empty), the
transformed record's `element_text` is exactly that value, regardless of
any element-derived text; the first element's text is consulted only when
the property is absent or falsy. -/
theorem transform_el_text_precedence (now : PyDateTime) (event : JObj)
    (props : JObj) (r : ClickEvent)
    (hp : asObj (pyOr (oget event "properties") (Json.obj [])) = .ok props)
    (ht : (oget props "$el_text").truthy = true)
    (hr : transform_event now event = .ok r) :
    r.element_text = oget props "$el_text" := by
  unfold transform_event at hr
  cases hts : transform_timestamp now event with
  | error m => rw [hts] at hr; simp at hr
  | ok ts =>
    rw [hts] at hr
    have hr' : transform_fields ts event = .ok r := hr
    unfold transform_fields at hr'
    split at hr'
    next m heq => rw [heq] at hp; simp at hp
    next props' heq =>
      have hpp : props' = props := by
        rw [heq] at hp
        exact Except.ok.inj hp
      rw [hpp] at hr'
      split at hr'
      next m heq2 => simp at hr'
      next firstJ heq2 =>
        split at hr'
        next m heq3 => simp at hr'
        next first_el heq3 =>
          injection hr' with h1
          rw [← h1]
          show pyOr (oget props "$el_text") (oget first_el "text") = _
          unfold pyOr
          rw [if_pos ht]

/-- An event with a falsy (empty-string) `$el_text` property and a first
element carrying display text. -/
def evEmptyText : JObj :=
  [("properties", Json.obj [("$el_text", Json.str "")]),
   ("elements", Json.arr [Json.obj [("text", Json.str "hello")]])]

/-- C4 counterexample: this event carries both a top-level text property
(`$el_text`, with value `""`) and a first element with text `"hello"`, yet
`transform_event` sets `element_text` to the element's text, not to the
top-level property's value — Python's `or` treats the empty string as
absent, so the claim fails as stated for falsy property values. -/
theorem transform_el_text_counterexample :
    (transform_event dt0 evEmptyText).map (fun r => r.element_text) =
      .ok (Json.str "hello") ∧
    Json.str "hello" ≠ Json.str "" := by
  constructor
  · decide
  · decide

/-- An event with a truthy `$el_text` property and a first element carrying
different display text. -/
def evGoText : JObj :=
  [("properties", Json.obj [("$el_text", Json.str "Go")]),
   ("elements", Json.arr [Json.obj [("text", Json.str "hello")]])]

/-- The record `evGoText` transforms to. -/
def rGoText : ClickEvent :=
  ⟨Json.str "", Json.str "", dt0, Json.null, Json.null, Json.null,
    Json.str "Go", Json.null, Json.null, Json.null, Json.null, Json.null,
    Json.null, Json.null, Json.null, Json.null, Json.null, Json.null,
    Json.null, Json.null, Json.null, Json.null, Json.null, Json.null,
    Json.null, Json.null, jdump (Json.obj evGoText)⟩

/-- A closed instance of `transform_el_text_precedence`: with a truthy
`$el_text` of `"Go"` and element text `"hello"`, the record keeps `"Go"`. -/
theorem transform_el_text_precedence_witness :
    transform_event dt0 evGoText = .ok rGoText ∧
    rGoText.element_text = oget [("$el_text", Json.str "Go")] "$el_text" :=
  ⟨by decide,
   transform_el_text_precedence dt0 evGoText [("$el_text", Json.str "Go")]
     rGoText (by decide) (by decide) (by decide)⟩

/-- An environment with complete database credentials but no PostHog API
key or project id. -/
def envDbOnly : Env :=
  [("DB_USER", "u"), ("DB_PASS", "pw"), ("DB_HOST", "h"),
   ("DB_PORT", "3306"), ("DB_NAME", "n")]

/-- C6 counterexample: with database credentials present but the required
PostHog API key missing, the startup trace performs database activity
(`Base.metadata.create_all` runs at import of `sqlalchemy_setup`) before
the configuration error is raised — the descriptive error does come, but
not before all network and database activity as the claim states. -/
theorem startup_config_error_counterexample :
    main_startup envDbOnly = [Step.dbCreateTables, Step.raiseError posthogErr] := by
  decide

/-- C6 (amended): a missing or empty database credential raises the
descriptive `sqlalchemy_setup` error as the very first observable step,
before any network or database activity; a missing or empty PostHog API
key or project id raises the descriptive `_get_posthog_config` error
before any network request is issued, but only once the first fetch
begins, after the database table-creation step has already run. -/
theorem startup_config_errors (env : Env) :
    (∀ m, db_env_check env = .error m →
      main_startup env = [Step.raiseError m]) ∧
    (∀ m, db_env_check env = .ok () → get_posthog_config env = .error m →
      main_startup env = [Step.dbCreateTables, Step.raiseError m] ∧
      ∀ u, Step.httpRequest u ∉ main_startup env) := by
  constructor
  · intro m hm
    unfold main_startup
    rw [hm]
  · intro m hok hph
    have htr : main_startup env = [Step.dbCreateTables, Step.raiseError m] := by
      unfold main_startup
      rw [hok, hph]
    refine ⟨htr, ?_⟩
    intro u hu
    rw [htr] at hu
    simp at hu

/-- A closed instance of `startup_config_errors`: an empty environment
fails on the database credentials as its sole step, and `envDbOnly` fails
on the PostHog configuration right after the table-creation step. -/
theorem startup_config_errors_witness :
    db_env_check ([] : Env) = .error dbCredsErr ∧
    main_startup ([] : Env) = [Step.raiseError dbCredsErr] ∧
    main_startup envDbOnly = [Step.dbCreateTables, Step.raiseError posthogErr] :=
  ⟨by decide,
   (startup_config_errors []).1 dbCredsErr (by decide),
   ((startup_config_errors envDbOnly).2 posthogErr (by decide) (by decide)).1⟩

/-- Whether a JSON value is a dict, so that Python `.get` works on it. -/
def objOK : Json → Bool
  | .obj _ => true
  | _ => false

/-- Whether the timestamp field value lets `transform_event` proceed: falsy
values fall back to the current time; truthy values must be parseable
ISO-8601 strings. -/
def tsOK (v : Json) : Bool :=
  if v.truthy then
    match v with
    | .str s => (parse_iso_datetime s).isSome
    | _ => false
  else true

/-- Whether the elements field value lets `transform_event` proceed: falsy
values become the empty dict; truthy values must be lists whose first
member is a dict. -/
def elemsOK (v : Json) : Bool :=
  if v.truthy then
    match v with
    | .arr (x :: _) => objOK x
    | _ => false
  else true

/-- The shapes under which `transform_event` cannot raise. -/
def transformShapeOK (event : JObj) : Bool :=
  tsOK (oget event "timestamp") &&
  objOK (pyOr (oget event "properties") (Json.obj [])) &&
  elemsOK (pyOr (oget event "elements") (Json.arr []))

example :
    transformShapeOK [("timestamp", Json.str "2025-02-31")] = false := by
  decide

example :
    transform_event dt0 [("timestamp", Json.str "2025-02-31T00:00:00Z")] =
      .error "ValueError: invalid isoformat string" := by decide

/-- The timestamp step succeeds under `tsOK`. -/
theorem transform_timestamp_total (now : PyDateTime) (event : JObj)
    (h : tsOK (oget event "timestamp") = true) :
    ∃ d, transform_timestamp now event = .ok d := by
  unfold tsOK at h
  unfold transform_timestamp
  by_cases htr : (oget event "timestamp").truthy = true
  · rw [if_pos htr] at h ⊢
    cases hv : oget event "timestamp" with
    | str s =>
      rw [hv] at h
      simp only [] at h
      cases hps : parse_iso_datetime s with
      | none => rw [hps] at h; simp at h
      | some d => exact ⟨d, by simp [hps]⟩
    | null => rw [hv] at h; simp at h
    | bool b => rw [hv] at h; simp at h
    | num n => rw [hv] at h; simp at h
    | arr xs => rw [hv] at h; simp at h
    | obj fs => rw [hv] at h; simp at h
  · rw [if_neg htr]
    exact ⟨now, rfl⟩

/-- `asObj` succeeds exactly on dicts. -/
theorem asObj_total (v : Json) (h : objOK v = true) :
    ∃ fs, asObj v = .ok fs ∧ v = Json.obj fs := by
  cases v with
  | obj fs => exact ⟨fs, rfl, rfl⟩
  | null => simp [objOK] at h
  | bool b => simp [objOK] at h
  | num n => simp [objOK] at h
  | str s => simp [objOK] at h
  | arr xs => simp [objOK] at h

/-- The first-element step and its `.get` lookups succeed under
`elemsOK`. -/
theorem firstElement_total (v : Json) (h : elemsOK v = true) :
    ∃ fj fe, firstElement v = .ok fj ∧ asObj fj = .ok fe := by
  unfold elemsOK at h
  unfold firstElement
  by_cases htr : v.truthy = true
  · rw [if_pos htr] at h ⊢
    cases v with
    | arr xs =>
      cases xs with
      | nil => simp [Json.truthy, List.isEmpty] at htr
      | cons x rest =>
        simp only [] at h
        obtain ⟨fe, hfe, -⟩ := asObj_total x (by simpa using h)
        exact ⟨x, fe, rfl, hfe⟩
    | null => simp at h
    | bool b => simp at h
    | num n => simp at h
    | str s => simp at h
    | obj fs => simp at h
  · rw [if_neg htr]
    exact ⟨Json.obj [], [], rfl, rfl⟩

/-- C10 (amended): `transform_event` succeeds on every JSON-object event
whose timestamp is absent, falsy or a parseable ISO-8601 string, whose
properties value is null, absent or a dict, and whose elements value is
null, absent or a list headed by a dict; in that case an absent `id` or
`distinct_id` becomes the empty string, and a null or absent properties
dict or elements list is treated as empty rather than raising. -/
theorem transform_total (now : PyDateTime) (event : JObj)
    (h : transformShapeOK event = true) :
    ∃ r, transform_event now event = .ok r ∧
      (jlookup event "id" = none → r.id = Json.str "") ∧
      (jlookup event "distinct_id" = none → r.distinct_id = Json.str "") ∧
      (oget event "properties" = Json.null →
        r.current_url = Json.null ∧ r.browser = Json.null ∧
        r.session_id = Json.null) ∧
      (oget event "elements" = Json.null →
        r.element_tag = Json.null ∧ r.element_href = Json.null) := by
  unfold transformShapeOK at h
  rw [Bool.and_eq_true, Bool.and_eq_true] at h
  obtain ⟨⟨hts, hpr⟩, hel⟩ := h
  obtain ⟨d, hd⟩ := transform_timestamp_total now event hts
  obtain ⟨props, hprops, -⟩ := asObj_total _ hpr
  obtain ⟨fj, fe, hfj, hfe⟩ := firstElement_total _ hel
  refine ⟨⟨jgetD event "id" (Json.str ""),
    jgetD event "distinct_id" (Json.str ""), d,
    oget props "$current_url", oget props "$pathname",
    oget props "$event_type",
    pyOr (oget props "$el_text") (oget fe "text"),
    oget fe "tag_name", oget fe "href",
    oget props "$browser", oget props "$os",
    oget props "$geoip_country_code", oget props "$referrer",
    oget props "$referring_domain", oget props "$geoip_city_name",
    oget props "$geoip_subdivision_1_name", oget props "$geoip_country_name",
    oget props "$geoip_postal_code", oget props "$geoip_latitude",
    oget props "$geoip_longitude", oget props "$device_type",
    oget props "$os_version", oget props "$browser_version",
    oget props "$viewport_width", oget props "$viewport_height",
    oget props "$session_id", jdump (Json.obj event)⟩, ?_, ?_, ?_, ?_, ?_⟩
  · unfold transform_event
    rw [hd]
    show transform_fields d event = _
    unfold transform_fields
    simp only [hprops, hfj, hfe]
  · intro hid
    show jgetD event "id" (Json.str "") = Json.str ""
    unfold jgetD
    rw [hid]
    rfl
  · intro hdid
    show jgetD event "distinct_id" (Json.str "") = Json.str ""
    unfold jgetD
    rw [hdid]
    rfl
  · intro hpn
    have h0 : asObj (pyOr (oget event "properties") (Json.obj [])) =
        .ok ([] : JObj) := by rw [hpn]; rfl
    have hp0 : props = [] := Except.ok.inj (hprops.symm.trans h0)
    subst hp0
    exact ⟨rfl, rfl, rfl⟩
  · intro hen
    have h0 : firstElement (pyOr (oget event "elements") (Json.arr [])) =
        .ok (Json.obj []) := by rw [hen]; rfl
    have hj0 : fj = Json.obj [] := Except.ok.inj (hfj.symm.trans h0)
    subst hj0
    have h2 : (Except.ok ([] : JObj) : Except String JObj) = .ok fe := hfe
    have hf0 : fe = [] := (Except.ok.inj h2).symm
    subst hf0
    exact ⟨rfl, rfl⟩

/-- C10 counterexample: an event whose timestamp is the unparseable string
`"garbage"` makes `transform_event` raise (`ValueError` from
`datetime.fromisoformat`), so the function is not total over every
JSON-object event. -/
theorem transform_total_counterexample :
    transform_event dt0 [("timestamp", Json.str "garbage")] =
      .error "ValueError: invalid isoformat string" := by
  decide

/-- An event with no `id`, a null properties dict and a null elements
list. -/
def evNulls : JObj :=
  [("distinct_id", Json.str "u"), ("properties", Json.null),
   ("elements", Json.null)]

/-- A closed instance of `transform_total` at `evNulls`: the shape check
holds and the transform succeeds with empty-string id and null extracted
fields. -/
theorem transform_total_witness :
    transformShapeOK evNulls = true ∧
    (∃ r, transform_event dt0 evNulls = .ok r ∧
      (jlookup evNulls "id" = none → r.id = Json.str "") ∧
      (jlookup evNulls "distinct_id" = none → r.distinct_id = Json.str "") ∧
      (oget evNulls "properties" = Json.null →
        r.current_url = Json.null ∧ r.browser = Json.null ∧
        r.session_id = Json.null) ∧
      (oget evNulls "elements" = Json.null →
        r.element_tag = Json.null ∧ r.element_href = Json.null)) :=
  ⟨by decide, transform_total dt0 evNulls (by decide)⟩
